import Mathlib

/-!
Verification of the rabbit-saga-orquestation repository: a shallow embedding of
the saga Coordinator (src/orchestrator/index.js), the Messaging Facade
(src/shared/MessageService.js) and the Direct (TCP) Transport
(src/shared/transport/TCPTransport.js), together with proofs of the
specification's claims about them.

JS objects used as string-keyed maps (sagaStore, serviceRegistry, messageQueue)
are embedded as association lists with JS-object update semantics (setting an
existing key replaces its value in place; setting a new key appends it).
JS `undefined` for absent payload or record fields is embedded as Option.none.
Timestamps (new Date()) carry no information the claims touch and are omitted
from recorded steps.
-/

namespace SagaOrch

/-- Event-type vocabulary (shared/constants EVENTS, per the wire vocabulary in
the spec and the handlers in the source). -/
inductive EventType where
  | orderCreated
  | inventoryCheckRequested
  | inventoryCheckSucceeded
  | inventoryCheckFailed
  | inventoryReserved
  | inventoryReleased
  | paymentRequested
  | paymentSucceeded
  | paymentFailed
  | orderCompleted
  | orderCancelled
deriving DecidableEq

/-- Saga status values assigned by the orchestrator's handlers.  CREATED is the
implicit pre-construction state named by the spec; the code never stores it. -/
inductive SagaStatus where
  | CREATED
  | INVENTORY_CHECK_PENDING
  | PAYMENT_PENDING
  | COMPLETED
  | FAILED
deriving DecidableEq, Fintype

/-- An order line item ({id, quantity}). -/
structure Item where
  id : String
  quantity : Nat
deriving DecidableEq

/-- An insufficient-stock report entry ({id, requested, available}). -/
structure InsufficientItem where
  id : String
  requested : Nat
  available : Nat
deriving DecidableEq

/-- The data payload of an event (content.data).  Every field the orchestrator
ever destructures is present; fields a given event does not carry are none,
mirroring JS undefined. -/
structure EventData where
  orderId : String
  customerId : Option String := none
  items : Option (List Item) := none
  totalAmount : Option Nat := none
  reservationId : Option String := none
  transactionId : Option String := none
  reason : Option String := none
  insufficientItems : Option (List InsufficientItem) := none
  amount : Option Nat := none
deriving DecidableEq

/-- A recorded saga step: { type, data } (the Date timestamp is omitted). -/
structure Step where
  type : EventType
  data : EventData
deriving DecidableEq

/-- A saga record as built by the orchestrator's handlers. -/
structure Saga where
  id : String
  customerId : Option String := none
  items : Option (List Item) := none
  totalAmount : Option Nat := none
  status : SagaStatus
  steps : List Step
  reservationId : Option String := none
  transactionId : Option String := none
  failureReason : Option String := none
  insufficientItems : Option (List InsufficientItem) := none
deriving DecidableEq

/-- An inbound event envelope { type, data }. -/
structure Event where
  type : EventType
  data : EventData
deriving DecidableEq

/-- The slice of a registered service contract the orchestrator's handlers
read when publishing (serviceRegistry[name].queueName). -/
structure ServiceInfo where
  queueName : String
deriving DecidableEq

/-- An outbound publish: messageService.publish(queue, { type, data }). -/
structure Publish where
  queue : String
  type : EventType
  data : EventData
deriving DecidableEq

/-- sagaStore: JS object keyed by order id. -/
abbrev SagaStore := List (String × Saga)

/-- serviceRegistry restricted to the fields handlers use. -/
abbrev Registry := List (String × ServiceInfo)

/-- JS object property read: obj[k], none when absent. -/
def alookup {β : Type} : List (String × β) → String → Option β
  | [], _ => none
  | (k', v) :: rest, k => if k' = k then some v else alookup rest k

/-- JS object property write: obj[k] = v (replace in place, else append). -/
def aset {β : Type} : List (String × β) → String → β → List (String × β)
  | [], k, v => [(k, v)]
  | (k', v') :: rest, k, v =>
      if k' = k then (k, v) :: rest else (k', v') :: aset rest k v

/-- The registry produced by registerCoreServices() with the queue names from
shared/contracts.js, in registration order. -/
def coreRegistry : Registry :=
  [("inventory-service", ⟨"inventory_service_queue"⟩),
   ("payment-service", ⟨"payment_service_queue"⟩),
   ("order-service", ⟨"order_service_queue"⟩)]

/-- handleOrderCreated (src/orchestrator/index.js:156-188): unconditionally
overwrites sagaStore[orderId] with a fresh saga in INVENTORY_CHECK_PENDING,
then publishes INVENTORY_CHECK_REQUESTED to the inventory service's queue
(returning early with no publish if that service is unregistered). -/
def handleOrderCreated (reg : Registry) (store : SagaStore) (d : EventData) :
    SagaStore × List Publish :=
  let saga : Saga :=
    { id := d.orderId
      customerId := d.customerId
      items := d.items
      totalAmount := d.totalAmount
      status := .INVENTORY_CHECK_PENDING
      steps := [⟨.orderCreated, d⟩] }
  let store' := aset store d.orderId saga
  match alookup reg "inventory-service" with
  | none => (store', [])
  | some svc =>
      (store', [⟨svc.queueName, .inventoryCheckRequested,
                 { orderId := d.orderId, items := d.items }⟩])

/-- handleInventoryCheckSuccess (src/orchestrator/index.js:191-222): if the
saga exists (no status check), set status PAYMENT_PENDING, store the
reservation id, append the step, and publish PAYMENT_REQUESTED to the payment
service's queue. -/
def handleInventoryCheckSuccess (reg : Registry) (store : SagaStore)
    (d : EventData) : SagaStore × List Publish :=
  match alookup store d.orderId with
  | none => (store, [])
  | some saga =>
      let saga' := { saga with
                     status := .PAYMENT_PENDING
                     reservationId := d.reservationId
                     steps := saga.steps ++ [⟨.inventoryCheckSucceeded, d⟩] }
      let store' := aset store d.orderId saga'
      match alookup reg "payment-service" with
      | none => (store', [])
      | some svc =>
          (store', [⟨svc.queueName, .paymentRequested,
                     { orderId := d.orderId
                       customerId := saga.customerId
                       amount := saga.totalAmount }⟩])

/-- handleInventoryCheckFailure (src/orchestrator/index.js:225-257): if the
saga exists (no status check), set status FAILED, store reason and
insufficient items, append the step, and publish ORDER_CANCELLED to the order
service's queue. -/
def handleInventoryCheckFailure (reg : Registry) (store : SagaStore)
    (d : EventData) : SagaStore × List Publish :=
  match alookup store d.orderId with
  | none => (store, [])
  | some saga =>
      let saga' := { saga with
                     status := .FAILED
                     failureReason := d.reason
                     insufficientItems := d.insufficientItems
                     steps := saga.steps ++ [⟨.inventoryCheckFailed, d⟩] }
      let store' := aset store d.orderId saga'
      match alookup reg "order-service" with
      | none => (store', [])
      | some svc =>
          (store', [⟨svc.queueName, .orderCancelled,
                     { orderId := d.orderId
                       reason := d.reason
                       insufficientItems := d.insufficientItems }⟩])

/-- handlePaymentSuccess (src/orchestrator/index.js:260-305): if the saga
exists (no status check), set status COMPLETED, store the transaction id,
append the step, then publish INVENTORY_RESERVED to the inventory queue and
ORDER_COMPLETED to the order queue, in that order, each guarded by its own
registry lookup (missing inventory service aborts before either publish). -/
def handlePaymentSuccess (reg : Registry) (store : SagaStore)
    (d : EventData) : SagaStore × List Publish :=
  match alookup store d.orderId with
  | none => (store, [])
  | some saga =>
      let saga' := { saga with
                     status := .COMPLETED
                     transactionId := d.transactionId
                     steps := saga.steps ++ [⟨.paymentSucceeded, d⟩] }
      let store' := aset store d.orderId saga'
      match alookup reg "inventory-service" with
      | none => (store', [])
      | some invSvc =>
          let p1 : Publish :=
            ⟨invSvc.queueName, .inventoryReserved,
             { orderId := d.orderId, reservationId := saga.reservationId }⟩
          match alookup reg "order-service" with
          | none => (store', [p1])
          | some ordSvc =>
              (store', [p1, ⟨ordSvc.queueName, .orderCompleted,
                             { orderId := d.orderId
                               transactionId := d.transactionId }⟩])

/-- handlePaymentFailure (src/orchestrator/index.js:308-353): if the saga
exists (no status check), set status FAILED, store the reason, append the
step, then publish INVENTORY_RELEASED (compensation) to the inventory queue
and ORDER_CANCELLED to the order queue, in that order, each guarded by its
own registry lookup. -/
def handlePaymentFailure (reg : Registry) (store : SagaStore)
    (d : EventData) : SagaStore × List Publish :=
  match alookup store d.orderId with
  | none => (store, [])
  | some saga =>
      let saga' := { saga with
                     status := .FAILED
                     failureReason := d.reason
                     steps := saga.steps ++ [⟨.paymentFailed, d⟩] }
      let store' := aset store d.orderId saga'
      match alookup reg "inventory-service" with
      | none => (store', [])
      | some invSvc =>
          let p1 : Publish :=
            ⟨invSvc.queueName, .inventoryReleased,
             { orderId := d.orderId, reservationId := saga.reservationId }⟩
          match alookup reg "order-service" with
          | none => (store', [p1])
          | some ordSvc =>
              (store', [p1, ⟨ordSvc.queueName, .orderCancelled,
                             { orderId := d.orderId, reason := d.reason }⟩])

/-- handleMessage + findEventHandler (src/orchestrator/index.js:120-153):
dispatch on event type; event types without a routing entry are logged and
dropped (no state change, no publish). -/
def handleMessage (reg : Registry) (store : SagaStore) (e : Event) :
    SagaStore × List Publish :=
  match e.type with
  | .orderCreated => handleOrderCreated reg store e.data
  | .inventoryCheckSucceeded => handleInventoryCheckSuccess reg store e.data
  | .inventoryCheckFailed => handleInventoryCheckFailure reg store e.data
  | .paymentSucceeded => handlePaymentSuccess reg store e.data
  | .paymentFailed => handlePaymentFailure reg store e.data
  | _ => (store, [])

/-- Process a list of inbound events one at a time to completion (the
coordinator's serial processing discipline), accumulating publishes. -/
def runEvents (reg : Registry) (store : SagaStore) :
    List Event → SagaStore × List Publish
  | [] => (store, [])
  | e :: es =>
      let r := handleMessage reg store e
      let r' := runEvents reg r.1 es
      (r'.1, r.2 ++ r'.2)

/-- The status of the saga stored for an order id, none if absent. -/
def statusOf (store : SagaStore) (orderId : String) : Option SagaStatus :=
  (alookup store orderId).map Saga.status

/-- The Bool preconditions of the coordinator's routing table, per event
type: order-created expects no saga for the order id, inventory events expect
INVENTORY_CHECK_PENDING, payment events expect PAYMENT_PENDING; event types
without a routing entry have no precondition. -/
def precondB (store : SagaStore) (e : Event) : Bool :=
  match e.type with
  | .orderCreated => (alookup store e.data.orderId).isNone
  | .inventoryCheckSucceeded =>
      decide (statusOf store e.data.orderId = some .INVENTORY_CHECK_PENDING)
  | .inventoryCheckFailed =>
      decide (statusOf store e.data.orderId = some .INVENTORY_CHECK_PENDING)
  | .paymentSucceeded =>
      decide (statusOf store e.data.orderId = some .PAYMENT_PENDING)
  | .paymentFailed =>
      decide (statusOf store e.data.orderId = some .PAYMENT_PENDING)
  | _ => true

/-- A run of inbound events in which every event satisfies the routing
table's precondition at the moment it is handled. -/
inductive ProtocolRun (reg : Registry) : SagaStore → List Event → Prop where
  | nil (store : SagaStore) : ProtocolRun reg store []
  | cons (store : SagaStore) (e : Event) (es : List Event) :
      precondB store e = true →
      ProtocolRun reg (handleMessage reg store e).1 es →
      ProtocolRun reg store (e :: es)

/-- Forward order on observed saga statuses: none (absent) precedes
everything, the chain CREATED, INVENTORY_CHECK_PENDING, PAYMENT_PENDING,
COMPLETED only moves forward, FAILED is reachable from the pending states,
and COMPLETED and FAILED are final. -/
def statusLe : Option SagaStatus → Option SagaStatus → Bool
  | none, _ => true
  | some .CREATED, some _ => true
  | some .INVENTORY_CHECK_PENDING, some .INVENTORY_CHECK_PENDING => true
  | some .INVENTORY_CHECK_PENDING, some .PAYMENT_PENDING => true
  | some .INVENTORY_CHECK_PENDING, some .COMPLETED => true
  | some .INVENTORY_CHECK_PENDING, some .FAILED => true
  | some .PAYMENT_PENDING, some .PAYMENT_PENDING => true
  | some .PAYMENT_PENDING, some .COMPLETED => true
  | some .PAYMENT_PENDING, some .FAILED => true
  | some .COMPLETED, some .COMPLETED => true
  | some .FAILED, some .FAILED => true
  | _, _ => false

end SagaOrch

namespace TCPModel

open SagaOrch (alookup aset)

/-- State of the TCPTransport's outbound side (src/shared/transport/
TCPTransport.js): clients is the set of channels with a live outbound
connection, messageQueue the per-channel pending delivery queues, and sent
the wire trace of messages written per channel, in write order.  The stream
delivers writes in order, so sentOn below is the sequence the channel's
subscriber receives. -/
structure TState (alpha : Type) where
  clients : List String
  messageQueue : List (String × List alpha)
  sent : List (String × alpha)
deriving DecidableEq

/-- A freshly constructed transport: no connections, no queues, nothing
written. -/
def TState.initial (alpha : Type) : TState alpha := ⟨[], [], []⟩

/-- client.write(JSON.stringify(message)) on the channel's connection. -/
def writeMsg {alpha : Type} (st : TState alpha) (channel : String)
    (m : alpha) : TState alpha :=
  { st with sent := st.sent ++ [(channel, m)] }

/-- The catch branch of publish (part_001:222-228): create the channel's
queue if absent, then push the message. -/
def enqueueMsg {alpha : Type} (st : TState alpha) (channel : String)
    (m : alpha) : TState alpha :=
  { st with messageQueue := aset st.messageQueue channel
                              ((alookup st.messageQueue channel).getD []
                                ++ [m]) }

/-- TCPTransport.connectToServer (part_001:160-208).  canConnect is whether
the TCP connect attempt succeeds (the environment).  Already connected: no
change.  On success: record the client, then drain the channel's pending
queue oldest-first (the shift/write loop), leaving an empty queue.  On
failure the promise rejects with no state change. -/
def connectToServer {alpha : Type} (st : TState alpha) (channel : String)
    (canConnect : Bool) : Except Unit (TState alpha) :=
  if st.clients.contains channel then .ok st
  else if canConnect then
    let st1 : TState alpha := { st with clients := channel :: st.clients }
    let q := (alookup st1.messageQueue channel).getD []
    if q.isEmpty then .ok st1
    else .ok { st1 with
               sent := st1.sent ++ q.map (fun m => (channel, m))
               messageQueue := aset st1.messageQueue channel [] }
  else .error ()

/-- TCPTransport.publish (part_001:215-239): with a live connection, write
the message; otherwise try to connect, and on connect failure append the
message to the channel's pending queue and return normally. -/
def publish {alpha : Type} (st : TState alpha) (channel : String) (m : alpha)
    (canConnect : Bool) : Except Unit (TState alpha) :=
  if st.clients.contains channel then .ok (writeMsg st channel m)
  else
    match connectToServer st channel canConnect with
    | .error _ => .ok (enqueueMsg st channel m)
    | .ok st1 => .ok (writeMsg st1 channel m)

/-- The operations a caller can perform against the outbound side. -/
inductive TOp (alpha : Type) where
  | pub (channel : String) (m : alpha) (canConnect : Bool)
  | conn (channel : String) (canConnect : Bool)

/-- Apply one operation; a rejected promise leaves the state as it was at the
throw point (connectToServer mutates nothing before rejecting). -/
def applyT {alpha : Type} (st : TState alpha) : TOp alpha → TState alpha
  | .pub ch m c =>
      match publish st ch m c with
      | .ok st1 => st1
      | .error _ => st
  | .conn ch c =>
      match connectToServer st ch c with
      | .ok st1 => st1
      | .error _ => st

def runT {alpha : Type} (st : TState alpha) : List (TOp alpha) → TState alpha
  | [] => st
  | op :: ops => runT (applyT st op) ops

/-- Messages written to (hence received on) a given channel, in order. -/
def sentOn {alpha : Type} (st : TState alpha) (channel : String) :
    List alpha :=
  (st.sent.filter (fun p => p.1 == channel)).map Prod.snd

/-- The channel's pending delivery queue. -/
def queueOn {alpha : Type} (st : TState alpha) (channel : String) :
    List alpha :=
  (alookup st.messageQueue channel).getD []

end TCPModel

namespace TCPPorts

open SagaOrch (alookup aset)

/-- The registerService/getPortForChannel slice of the TCPTransport state:
serviceRegistry (service name → assigned port, a JS object) and
config.portBase. -/
structure PState where
  registry : List (String × Nat)
  portBase : Nat
deriving DecidableEq

/-- A freshly constructed transport configured with base port. -/
def PState.initial (base : Nat) : PState := ⟨[], base⟩

/-- The well-known portMapping of registerService (part_001:59-64). -/
def knownOffset : String → Option Nat
  | "orchestrator" => some 0
  | "order-service" => some 1
  | "inventory-service" => some 2
  | "payment-service" => some 3
  | _ => none

/-- TCPTransport.registerService (part_001:57-77): a well-known name is
stored at portBase + its fixed offset; an unknown name at portBase + 10 +
(current number of registered keys); returns the stored port. -/
def registerService (st : PState) (serviceName : String) : Nat × PState :=
  match knownOffset serviceName with
  | some off =>
      (st.portBase + off,
       { st with registry := aset st.registry serviceName (st.portBase + off) })
  | none =>
      let port := st.portBase + (10 + st.registry.length)
      (port, { st with registry := aset st.registry serviceName port })

/-- channel.replace('_queue', '') — JS String.replace with a string pattern
replaces only the first occurrence. -/
def stripQueueFirst : List Char → List Char
  | [] => []
  | c :: cs =>
      if c = '_' ∧ cs.take 5 = ['q', 'u', 'e', 'u', 'e'] then cs.drop 5
      else c :: stripQueueFirst cs

/-- The service name derived from a channel name (part_001:87-89):
channel.replace('_queue', '').replace(/_/g, '-'). -/
def channelToService (channel : String) : String :=
  String.mk ((stripQueueFirst channel.toList).map fun c =>
    if c = '_' then '-' else c)

/-- TCPTransport.getPortForChannel (part_001:84-96): derive the service name;
if the stored port is JS-falsy (absent, or the number 0), register the
service; return the stored port. -/
def getPortForChannel (st : PState) (channel : String) : Nat × PState :=
  let serviceName := channelToService channel
  match alookup st.registry serviceName with
  | some p => if p ≠ 0 then (p, st) else registerService st serviceName
  | none => registerService st serviceName

/-- Port-registry states reachable within one process lifetime from a
transport configured with base port P: registerService (also reached through
initialize) and getPortForChannel are the only operations that touch the
registry. -/
inductive Reaches (P : Nat) : PState → Prop where
  | base : Reaches P (PState.initial P)
  | reg (st : PState) (n : String) :
      Reaches P st → Reaches P (registerService st n).2
  | chan (st : PState) (ch : String) :
      Reaches P st → Reaches P (getPortForChannel st ch).2

end TCPPorts

namespace MessageServiceModel

/-- The calls a MessageService facade makes on its transport. -/
inductive TCall where
  | initT
  | pubT (queue : String)
  | subT (queue : String)
  | cqT (queue : String)
deriving DecidableEq

/-- Facade state (src/shared/MessageService.js): the initialized flag plus
the trace of transport calls made so far. -/
structure MState where
  initialized : Bool
  calls : List TCall
deriving DecidableEq

/-- A freshly constructed facade (constructor sets initialized = false). -/
def MState.fresh : MState := ⟨false, []⟩

/-- MessageService.initialize (MessageService.js:21-33): no-op when already
initialized, else transport.initialize(serviceName) then mark initialized.
The facade passes the service name it was constructed with, under which the
transport's initialize succeeds, so no failure path arises. -/
def initCall (st : MState) : MState :=
  if st.initialized then st
  else { initialized := true, calls := st.calls ++ [TCall.initT] }

/-- MessageService.ensureInitialized (MessageService.js:51-55). -/
def ensureInitialized (st : MState) : MState :=
  if st.initialized then st else initCall st

/-- The facade operations a caller can invoke. -/
inductive MOp where
  | initOp
  | pubOp (queue : String)
  | subOp (queue : String)
  | cqOp (queue : String)

/-- One facade call (MessageService.js:21-75): publish/subscribe ensure
initialization then call the transport; createQueue ensures initialization
then calls transport.createQueue only if the transport defines one
(hasCreateQueue: true for the broker transport, false for the TCP one). -/
def stepM (hasCreateQueue : Bool) (st : MState) : MOp → MState
  | .initOp => initCall st
  | .pubOp q =>
      let st1 := ensureInitialized st
      { st1 with calls := st1.calls ++ [TCall.pubT q] }
  | .subOp q =>
      let st1 := ensureInitialized st
      { st1 with calls := st1.calls ++ [TCall.subT q] }
  | .cqOp q =>
      let st1 := ensureInitialized st
      if hasCreateQueue then { st1 with calls := st1.calls ++ [TCall.cqT q] }
      else st1

def runM (hasCreateQueue : Bool) (st : MState) : List MOp → MState
  | [] => st
  | op :: ops => runM hasCreateQueue (stepM hasCreateQueue st op) ops

/-- How many transport.initialize invocations a call trace records. -/
def initCount : List TCall → Nat
  | [] => 0
  | c :: rest => (if c = TCall.initT then 1 else 0) + initCount rest

end MessageServiceModel

namespace SagaOrch

/-- Concrete witness data: a saga awaiting payment, as built by the happy
path up to INVENTORY_CHECK_SUCCEEDED for order O3. -/
def sagaO3 : Saga :=
  { id := "O3"
    customerId := some "C1"
    totalAmount := some 500
    status := .PAYMENT_PENDING
    steps := []
    reservationId := some "R3" }

/-- Concrete witness data: a saga that already finished (terminal status,
every optional field populated). -/
def sagaDone : Saga :=
  { id := "O9"
    customerId := some "C2"
    totalAmount := some 100
    status := .COMPLETED
    steps := [⟨.orderCreated, { orderId := "O9" }⟩,
              ⟨.paymentSucceeded, { orderId := "O9" }⟩]
    reservationId := some "R9"
    transactionId := some "T9" }

/-- Concrete witness data: a saga awaiting its inventory check for O2. -/
def sagaO2 : Saga :=
  { id := "O2"
    customerId := some "C3"
    totalAmount := some 50
    status := .INVENTORY_CHECK_PENDING
    steps := [] }

end SagaOrch

namespace SagaOrch

theorem alookup_aset_self {β : Type} (l : List (String × β)) (k : String)
    (v : β) : alookup (aset l k v) k = some v := by
  induction l with
  | nil => simp [aset, alookup]
  | cons p rest ih =>
      obtain ⟨k', v'⟩ := p
      by_cases h : k' = k
      · simp [aset, h, alookup]
      · simp [aset, h, alookup, ih]

theorem alookup_aset_ne {β : Type} (l : List (String × β)) {k k' : String}
    (v : β) (h : k' ≠ k) : alookup (aset l k v) k' = alookup l k' := by
  have h' : ¬k = k' := fun hh => h hh.symm
  induction l with
  | nil => simp [aset, alookup, h']
  | cons p rest ih =>
      obtain ⟨k'', v''⟩ := p
      by_cases hk : k'' = k
      · subst hk
        simp [aset, alookup, h']
      · simp [aset, hk, alookup, ih]

theorem statusOf_aset (store : SagaStore) (k : String) (s : Saga)
    (oid : String) :
    statusOf (aset store k s) oid =
      if k = oid then some s.status else statusOf store oid := by
  by_cases h : k = oid
  · subst h
    simp [statusOf, alookup_aset_self]
  · have h2 : oid ≠ k := fun hh => h hh.symm
    simp [statusOf, h, alookup_aset_ne _ _ h2]

theorem statusLe_refl (a : Option SagaStatus) : statusLe a a = true := by
  revert a
  decide

theorem statusLe_trans (a b c : Option SagaStatus)
    (h1 : statusLe a b = true) (h2 : statusLe b c = true) :
    statusLe a c = true := by
  revert a b c
  decide

theorem handleOrderCreated_fst (reg : Registry) (store : SagaStore)
    (d : EventData) :
    (handleOrderCreated reg store d).1 =
      aset store d.orderId
        ⟨d.orderId, d.customerId, d.items, d.totalAmount,
         .INVENTORY_CHECK_PENDING, [⟨.orderCreated, d⟩],
         none, none, none, none⟩ := by
  rcases h : alookup reg "inventory-service" with _ | svc <;>
    simp [handleOrderCreated, h]

theorem handleInventoryCheckSuccess_fst (reg : Registry) (store : SagaStore)
    (d : EventData) (saga : Saga)
    (hs : alookup store d.orderId = some saga) :
    (handleInventoryCheckSuccess reg store d).1 =
      aset store d.orderId
        { saga with
          status := .PAYMENT_PENDING
          reservationId := d.reservationId
          steps := saga.steps ++ [⟨.inventoryCheckSucceeded, d⟩] } := by
  rcases h : alookup reg "payment-service" with _ | svc <;>
    simp [handleInventoryCheckSuccess, hs, h]

theorem handleInventoryCheckFailure_fst (reg : Registry) (store : SagaStore)
    (d : EventData) (saga : Saga)
    (hs : alookup store d.orderId = some saga) :
    (handleInventoryCheckFailure reg store d).1 =
      aset store d.orderId
        { saga with
          status := .FAILED
          failureReason := d.reason
          insufficientItems := d.insufficientItems
          steps := saga.steps ++ [⟨.inventoryCheckFailed, d⟩] } := by
  rcases h : alookup reg "order-service" with _ | svc <;>
    simp [handleInventoryCheckFailure, hs, h]

theorem handlePaymentSuccess_fst (reg : Registry) (store : SagaStore)
    (d : EventData) (saga : Saga)
    (hs : alookup store d.orderId = some saga) :
    (handlePaymentSuccess reg store d).1 =
      aset store d.orderId
        { saga with
          status := .COMPLETED
          transactionId := d.transactionId
          steps := saga.steps ++ [⟨.paymentSucceeded, d⟩] } := by
  rcases h1 : alookup reg "inventory-service" with _ | invSvc <;>
    rcases h2 : alookup reg "order-service" with _ | ordSvc <;>
      simp [handlePaymentSuccess, hs, h1, h2]

theorem handlePaymentFailure_fst (reg : Registry) (store : SagaStore)
    (d : EventData) (saga : Saga)
    (hs : alookup store d.orderId = some saga) :
    (handlePaymentFailure reg store d).1 =
      aset store d.orderId
        { saga with
          status := .FAILED
          failureReason := d.reason
          steps := saga.steps ++ [⟨.paymentFailed, d⟩] } := by
  rcases h1 : alookup reg "inventory-service" with _ | invSvc <;>
    rcases h2 : alookup reg "order-service" with _ | ordSvc <;>
      simp [handlePaymentFailure, hs, h1, h2]

theorem statusLe_handleMessage (reg : Registry) (store : SagaStore)
    (e : Event) (hpre : precondB store e = true) (oid : String) :
    statusLe (statusOf store oid)
      (statusOf (handleMessage reg store e).1 oid) = true := by
  obtain ⟨ty, d⟩ := e
  cases ty with
  | orderCreated =>
      simp only [precondB, Option.isNone_iff_eq_none] at hpre
      simp only [handleMessage, handleOrderCreated_fst]
      rw [statusOf_aset]
      by_cases h : d.orderId = oid
      · subst h
        rw [if_pos rfl]
        simp [statusOf, hpre, statusLe]
      · rw [if_neg h]
        exact statusLe_refl _
  | inventoryCheckSucceeded =>
      simp only [precondB, decide_eq_true_eq] at hpre
      rcases hs : alookup store d.orderId with _ | saga
      · simp [statusOf, hs] at hpre
      · simp only [handleMessage, handleInventoryCheckSuccess_fst reg store d saga hs]
        rw [statusOf_aset]
        by_cases h : d.orderId = oid
        · subst h
          rw [if_pos rfl, hpre]
          rfl
        · rw [if_neg h]
          exact statusLe_refl _
  | inventoryCheckFailed =>
      simp only [precondB, decide_eq_true_eq] at hpre
      rcases hs : alookup store d.orderId with _ | saga
      · simp [statusOf, hs] at hpre
      · simp only [handleMessage, handleInventoryCheckFailure_fst reg store d saga hs]
        rw [statusOf_aset]
        by_cases h : d.orderId = oid
        · subst h
          rw [if_pos rfl, hpre]
          rfl
        · rw [if_neg h]
          exact statusLe_refl _
  | paymentSucceeded =>
      simp only [precondB, decide_eq_true_eq] at hpre
      rcases hs : alookup store d.orderId with _ | saga
      · simp [statusOf, hs] at hpre
      · simp only [handleMessage, handlePaymentSuccess_fst reg store d saga hs]
        rw [statusOf_aset]
        by_cases h : d.orderId = oid
        · subst h
          rw [if_pos rfl, hpre]
          rfl
        · rw [if_neg h]
          exact statusLe_refl _
  | paymentFailed =>
      simp only [precondB, decide_eq_true_eq] at hpre
      rcases hs : alookup store d.orderId with _ | saga
      · simp [statusOf, hs] at hpre
      · simp only [handleMessage, handlePaymentFailure_fst reg store d saga hs]
        rw [statusOf_aset]
        by_cases h : d.orderId = oid
        · subst h
          rw [if_pos rfl, hpre]
          rfl
        · rw [if_neg h]
          exact statusLe_refl _
  | inventoryCheckRequested => exact statusLe_refl _
  | inventoryReserved => exact statusLe_refl _
  | inventoryReleased => exact statusLe_refl _
  | paymentRequested => exact statusLe_refl _
  | orderCompleted => exact statusLe_refl _
  | orderCancelled => exact statusLe_refl _

end SagaOrch

namespace SagaOrch

/-- C1 counterexample: the handlers never check the saga's current status, so
a handled event can change a terminal saga's status.  Concretely, after
order-created, inventory-check-succeeded and payment-succeeded for O1 the
saga is COMPLETED, yet a further inventory-check-succeeded for O1 moves it to
PAYMENT_PENDING. -/
theorem terminal_status_can_change :
    statusOf (runEvents coreRegistry []
      [⟨.orderCreated, { orderId := "O1", customerId := some "C1" }⟩,
       ⟨.inventoryCheckSucceeded, { orderId := "O1", reservationId := some "R1" }⟩,
       ⟨.paymentSucceeded, { orderId := "O1", transactionId := some "T1" }⟩]).1 "O1"
      = some .COMPLETED
    ∧ statusOf (runEvents coreRegistry []
      [⟨.orderCreated, { orderId := "O1", customerId := some "C1" }⟩,
       ⟨.inventoryCheckSucceeded, { orderId := "O1", reservationId := some "R1" }⟩,
       ⟨.paymentSucceeded, { orderId := "O1", transactionId := some "T1" }⟩,
       ⟨.inventoryCheckSucceeded, { orderId := "O1", reservationId := some "R2" }⟩]).1 "O1"
      = some .PAYMENT_PENDING := by
  constructor <;> decide

/-- C1 (amended): over any run of inbound events in which each event meets
its routing-table precondition (order-created only for an absent saga,
inventory events only while the saga is INVENTORY_CHECK_PENDING, payment
events only while it is PAYMENT_PENDING), every saga's status only moves
forward along CREATED, INVENTORY_CHECK_PENDING, PAYMENT_PENDING, COMPLETED
or drops to FAILED from a pending state, and once COMPLETED or FAILED it
never changes (statusLe encodes exactly this order with terminal states
final).  Without those preconditions the property fails, because the
handlers update the status unconditionally. -/
theorem saga_status_forward_only (reg : Registry) :
    ∀ (events : List Event) (store : SagaStore),
      ProtocolRun reg store events → ∀ oid : String,
      statusLe (statusOf store oid)
        (statusOf (runEvents reg store events).1 oid) = true := by
  intro events
  induction events with
  | nil =>
      intro store _ oid
      simpa [runEvents] using statusLe_refl (statusOf store oid)
  | cons e es ih =>
      intro store hrun oid
      cases hrun with
      | cons _ _ _ hpre htail =>
          have h1 := statusLe_handleMessage reg store e hpre oid
          have h2 := ih _ htail oid
          exact statusLe_trans _ _ _ h1 h2

/-- C1 witness: the amended theorem applied to a concrete two-event protocol
run for order O1. -/
theorem saga_status_forward_only_witness :
    statusLe (statusOf [] "O1")
      (statusOf (runEvents coreRegistry []
        [⟨.orderCreated, { orderId := "O1", customerId := some "C1" }⟩,
         ⟨.inventoryCheckSucceeded, { orderId := "O1", reservationId := some "R1" }⟩]).1
        "O1") = true :=
  saga_status_forward_only coreRegistry
    [⟨.orderCreated, { orderId := "O1", customerId := some "C1" }⟩,
     ⟨.inventoryCheckSucceeded, { orderId := "O1", reservationId := some "R1" }⟩]
    []
    (ProtocolRun.cons _ _ _ (by decide)
      (ProtocolRun.cons _ _ _ (by decide) (ProtocolRun.nil _)))
    "O1"

/-- C2: handling payment-failed for an existing saga (the claim stipulates
status PAYMENT_PENDING) sets the status to FAILED, stores the failure
reason, and publishes inventory-released with the saga's reservation id
strictly before order-cancelled with the reason. -/
theorem handlePaymentFailure_compensates (reg : Registry) (store : SagaStore)
    (d : EventData) (saga : Saga) (invSvc ordSvc : ServiceInfo)
    (hs : alookup store d.orderId = some saga)
    (hst : saga.status = .PAYMENT_PENDING)
    (hinv : alookup reg "inventory-service" = some invSvc)
    (hord : alookup reg "order-service" = some ordSvc) :
    handlePaymentFailure reg store d =
      (aset store d.orderId
        { saga with
          status := .FAILED
          failureReason := d.reason
          steps := saga.steps ++ [⟨.paymentFailed, d⟩] },
       [⟨invSvc.queueName, .inventoryReleased,
         { orderId := d.orderId, reservationId := saga.reservationId }⟩,
        ⟨ordSvc.queueName, .orderCancelled,
         { orderId := d.orderId, reason := d.reason }⟩]) := by
  simp [handlePaymentFailure, hs, hinv, hord]

/-- C2 witness: the theorem at a concrete PAYMENT_PENDING saga for O3 under
the core registry; the compensation precedes the cancellation. -/
theorem handlePaymentFailure_compensates_witness :
    (handlePaymentFailure coreRegistry [("O3", sagaO3)]
      { orderId := "O3", reason := some "insufficient funds" }).2.map Publish.type
      = [.inventoryReleased, .orderCancelled] := by
  rw [handlePaymentFailure_compensates coreRegistry [("O3", sagaO3)]
      { orderId := "O3", reason := some "insufficient funds" } sagaO3
      ⟨"inventory_service_queue"⟩ ⟨"order_service_queue"⟩
      (by decide) (by decide) (by decide) (by decide)]
  rfl

/-- C4: handling payment-succeeded for an existing saga (the claim stipulates
status PAYMENT_PENDING) sets the status to COMPLETED, stores the transaction
id, and publishes inventory-reserved then order-completed, in that order, as
two separate publishes. -/
theorem handlePaymentSuccess_completes (reg : Registry) (store : SagaStore)
    (d : EventData) (saga : Saga) (invSvc ordSvc : ServiceInfo)
    (hs : alookup store d.orderId = some saga)
    (hst : saga.status = .PAYMENT_PENDING)
    (hinv : alookup reg "inventory-service" = some invSvc)
    (hord : alookup reg "order-service" = some ordSvc) :
    handlePaymentSuccess reg store d =
      (aset store d.orderId
        { saga with
          status := .COMPLETED
          transactionId := d.transactionId
          steps := saga.steps ++ [⟨.paymentSucceeded, d⟩] },
       [⟨invSvc.queueName, .inventoryReserved,
         { orderId := d.orderId, reservationId := saga.reservationId }⟩,
        ⟨ordSvc.queueName, .orderCompleted,
         { orderId := d.orderId, transactionId := d.transactionId }⟩]) := by
  simp [handlePaymentSuccess, hs, hinv, hord]

/-- C4 witness: the theorem at a concrete PAYMENT_PENDING saga for O3 under
the core registry. -/
theorem handlePaymentSuccess_completes_witness :
    (handlePaymentSuccess coreRegistry [("O3", sagaO3)]
      { orderId := "O3", transactionId := some "T3" }).2.map Publish.type
      = [.inventoryReserved, .orderCompleted] := by
  rw [handlePaymentSuccess_completes coreRegistry [("O3", sagaO3)]
      { orderId := "O3", transactionId := some "T3" } sagaO3
      ⟨"inventory_service_queue"⟩ ⟨"order_service_queue"⟩
      (by decide) (by decide) (by decide) (by decide)]
  rfl

/-- C5: an inventory or payment event whose order id has no saga record is
dropped: the handler returns (it is total, no exception path is reached),
publishes nothing, and leaves the saga store unchanged. -/
theorem unknown_saga_event_dropped (reg : Registry) (store : SagaStore)
    (e : Event)
    (htype : e.type = .inventoryCheckSucceeded ∨ e.type = .inventoryCheckFailed
      ∨ e.type = .paymentSucceeded ∨ e.type = .paymentFailed)
    (hs : alookup store e.data.orderId = none) :
    handleMessage reg store e = (store, []) := by
  obtain ⟨ty, d⟩ := e
  dsimp only at htype hs
  rcases htype with h | h | h | h <;> subst h <;>
    simp [handleMessage, handleInventoryCheckSuccess,
          handleInventoryCheckFailure, handlePaymentSuccess,
          handlePaymentFailure, hs]

/-- C5 witness: a payment-failed event for an order id with no saga record,
against the core registry and an empty saga store. -/
theorem unknown_saga_event_dropped_witness :
    handleMessage coreRegistry [] ⟨.paymentFailed, { orderId := "ghost" }⟩
      = ([], []) :=
  unknown_saga_event_dropped coreRegistry []
    ⟨.paymentFailed, { orderId := "ghost" }⟩
    (Or.inr (Or.inr (Or.inr rfl))) (by decide)

end SagaOrch

namespace SagaOrch

/-- C6: handling inventory-check-failed for an existing saga (the claim
stipulates status INVENTORY_CHECK_PENDING) sets the status to FAILED, stores
the reason and insufficient items, and publishes order-cancelled with
orderId, reason and insufficientItems; moreover, in any run consisting of
order-created followed by inventory-check-failed for that order id, no
payment-requested event is ever published. -/
theorem inventoryFailure_cancels_no_payment :
    (∀ (reg : Registry) (store : SagaStore) (d : EventData) (saga : Saga)
        (ordSvc : ServiceInfo),
      alookup store d.orderId = some saga →
      saga.status = .INVENTORY_CHECK_PENDING →
      alookup reg "order-service" = some ordSvc →
      handleInventoryCheckFailure reg store d =
        (aset store d.orderId
          { saga with
            status := .FAILED
            failureReason := d.reason
            insufficientItems := d.insufficientItems
            steps := saga.steps ++ [⟨.inventoryCheckFailed, d⟩] },
         [⟨ordSvc.queueName, .orderCancelled,
           { orderId := d.orderId
             reason := d.reason
             insufficientItems := d.insufficientItems }⟩]))
    ∧ (∀ (reg : Registry) (d1 d2 : EventData), d2.orderId = d1.orderId →
        ∀ p ∈ (runEvents reg []
          [⟨.orderCreated, d1⟩, ⟨.inventoryCheckFailed, d2⟩]).2,
          p.type ≠ .paymentRequested) := by
  constructor
  · intro reg store d saga ordSvc hs hst hord
    simp [handleInventoryCheckFailure, hs, hord]
  · intro reg d1 d2 heq p hp
    rcases hinv : alookup reg "inventory-service" with _ | invSvc <;>
      rcases hord : alookup reg "order-service" with _ | ordSvc <;>
        simp [runEvents, handleMessage, handleOrderCreated,
              handleInventoryCheckFailure, hinv, hord, heq, alookup, aset]
          at hp
    · rcases hp with rfl
      simp
    · rcases hp with rfl
      simp
    · rcases hp with rfl | rfl <;> simp

/-- C6 witness: the theorem at a concrete INVENTORY_CHECK_PENDING saga for O2
under the core registry, and at a concrete two-event run whose only publishes
are inventory-check-requested and order-cancelled. -/
theorem inventoryFailure_cancels_no_payment_witness :
    handleInventoryCheckFailure coreRegistry [("O2", sagaO2)]
        { orderId := "O2", reason := some "insufficient stock" }
      = (aset [("O2", sagaO2)] "O2"
          { sagaO2 with
            status := .FAILED
            failureReason := some "insufficient stock"
            steps := sagaO2.steps ++
              [⟨.inventoryCheckFailed,
                { orderId := "O2", reason := some "insufficient stock" }⟩] },
         [⟨"order_service_queue", .orderCancelled,
           { orderId := "O2", reason := some "insufficient stock" }⟩])
    ∧ (⟨"order_service_queue", .orderCancelled,
        { orderId := "O2", reason := some "insufficient stock" }⟩ : Publish).type
        ≠ .paymentRequested :=
  ⟨inventoryFailure_cancels_no_payment.1 coreRegistry [("O2", sagaO2)]

      { orderId := "O2", reason := some "insufficient stock" } sagaO2
      ⟨"order_service_queue"⟩ (by decide) (by decide) (by decide),
   inventoryFailure_cancels_no_payment.2 coreRegistry
      { orderId := "O2", customerId := some "C2" }
      { orderId := "O2", reason := some "insufficient stock" } rfl
      ⟨"order_service_queue", .orderCancelled,
       { orderId := "O2", reason := some "insufficient stock" }⟩
      (by decide)⟩

/-- C10: handling order-created for an order id that already has a saga
record (of any shape, including a terminal one) replaces it with a fresh
saga in INVENTORY_CHECK_PENDING whose steps list holds only the new
order-created step and whose reservation id, transaction id, failure reason
and insufficient items are all unset, and publishes inventory-check-requested
again. -/
theorem orderCreated_replaces_existing (reg : Registry) (store : SagaStore)
    (d : EventData) (old : Saga) (invSvc : ServiceInfo)
    (hold : alookup store d.orderId = some old)
    (hinv : alookup reg "inventory-service" = some invSvc) :
    handleOrderCreated reg store d =
      (aset store d.orderId
        ⟨d.orderId, d.customerId, d.items, d.totalAmount,
         .INVENTORY_CHECK_PENDING, [⟨.orderCreated, d⟩],
         none, none, none, none⟩,
       [⟨invSvc.queueName, .inventoryCheckRequested,
         { orderId := d.orderId, items := d.items }⟩])
    ∧ alookup (handleOrderCreated reg store d).1 d.orderId =
        some ⟨d.orderId, d.customerId, d.items, d.totalAmount,
              .INVENTORY_CHECK_PENDING, [⟨.orderCreated, d⟩],
              none, none, none, none⟩ := by
  constructor
  · simp [handleOrderCreated, hinv]
  · rw [handleOrderCreated_fst]
    exact alookup_aset_self _ _ _

/-- C10 witness: the theorem applied where the existing record is a finished
(COMPLETED) saga with steps, reservation id and transaction id populated. -/
theorem orderCreated_replaces_existing_witness :
    alookup (handleOrderCreated coreRegistry [("O9", sagaDone)]
        { orderId := "O9", customerId := some "C9", totalAmount := some 10 }).1
        "O9"
      = some ⟨"O9", some "C9", none, some 10, .INVENTORY_CHECK_PENDING,
              [⟨.orderCreated,
                { orderId := "O9", customerId := some "C9",
                  totalAmount := some 10 }⟩],
              none, none, none, none⟩ :=
  (orderCreated_replaces_existing coreRegistry [("O9", sagaDone)]
      { orderId := "O9", customerId := some "C9", totalAmount := some 10 }
      sagaDone ⟨"inventory_service_queue"⟩ (by decide) (by decide)).2

end SagaOrch

namespace TCPModel

/-- C3: for any channel, publishing E1, E2, E3 on a fresh transport while
every connection attempt fails, then successfully connecting, writes exactly
E1, E2, E3 to the channel, in order, with no duplication and no loss, and
empties the pending queue; and if instead the connection is established by a
fourth publish E4, the queue is flushed oldest-first before E4 is sent. -/
theorem tcp_pending_queue_fifo (alpha : Type) (channel : String)
    (E1 E2 E3 E4 : alpha) :
    (sentOn (runT (TState.initial alpha)
        [.pub channel E1 false, .pub channel E2 false, .pub channel E3 false,
         .conn channel true]) channel = [E1, E2, E3]
      ∧ queueOn (runT (TState.initial alpha)
          [.pub channel E1 false, .pub channel E2 false, .pub channel E3 false,
           .conn channel true]) channel = [])
    ∧ sentOn (runT (TState.initial alpha)
        [.pub channel E1 false, .pub channel E2 false, .pub channel E3 false,
         .pub channel E4 true]) channel = [E1, E2, E3, E4] := by
  refine ⟨⟨?_, ?_⟩, ?_⟩ <;>
    simp [runT, applyT, publish, connectToServer, enqueueMsg, writeMsg,
          sentOn, queueOn, TState.initial, SagaOrch.alookup, SagaOrch.aset]

/-- C7: when publish finds no live connection for the channel and the
connection attempt fails, the event is appended at the tail of that
channel's pending delivery queue, nothing is written to the wire, and
publish returns normally (ok), not an error. -/
theorem tcp_publish_queues_on_failure (alpha : Type) (st : TState alpha)
    (channel : String) (m : alpha)
    (h : st.clients.contains channel = false) :
    publish st channel m false = .ok (enqueueMsg st channel m)
    ∧ queueOn (enqueueMsg st channel m) channel = queueOn st channel ++ [m]
    ∧ (enqueueMsg st channel m).sent = st.sent := by
  have h' : channel ∉ st.clients := by simpa using h
  refine ⟨?_, ?_, rfl⟩
  · simp [publish, connectToServer, h']
  · simp [enqueueMsg, queueOn, SagaOrch.alookup_aset_self]

/-- C7 witness: the theorem at a fresh transport, channel ch and message 5. -/
theorem tcp_publish_queues_on_failure_witness :
    publish (TState.initial Nat) "ch" 5 false
        = .ok (enqueueMsg (TState.initial Nat) "ch" 5)
    ∧ queueOn (enqueueMsg (TState.initial Nat) "ch" 5) "ch"
        = queueOn (TState.initial Nat) "ch" ++ [5]
    ∧ (enqueueMsg (TState.initial Nat) "ch" 5).sent
        = (TState.initial Nat).sent :=
  tcp_publish_queues_on_failure Nat (TState.initial Nat) "ch" 5 (by decide)

end TCPModel

namespace TCPPorts

open SagaOrch (alookup aset alookup_aset_self alookup_aset_ne)

theorem registerService_preserves (P : Nat) (st : PState) (n : String)
    (hbase : st.portBase = P)
    (hinv : ∀ m off, knownOffset m = some off →
      alookup st.registry m = none ∨ alookup st.registry m = some (P + off)) :
    (registerService st n).2.portBase = P ∧
      ∀ m off, knownOffset m = some off →
        alookup (registerService st n).2.registry m = none ∨
        alookup (registerService st n).2.registry m = some (P + off) := by
  rcases hk : knownOffset n with _ | off
  · simp only [registerService, hk]
    refine ⟨hbase, ?_⟩
    intro m off' hm
    have hmn : m ≠ n := by
      intro hh
      subst hh
      rw [hm] at hk
      exact Option.noConfusion hk
    rw [alookup_aset_ne _ _ hmn]
    exact hinv m off' hm
  · simp only [registerService, hk]
    refine ⟨hbase, ?_⟩
    intro m off' hm
    by_cases hmn : m = n
    · subst hmn
      rw [hm] at hk
      injection hk with hoff
      subst hoff
      right
      rw [alookup_aset_self, hbase]
    · rw [alookup_aset_ne _ _ hmn]
      exact hinv m off' hm

theorem getPortForChannel_preserves (P : Nat) (st : PState) (ch : String)
    (hbase : st.portBase = P)
    (hinv : ∀ m off, knownOffset m = some off →
      alookup st.registry m = none ∨ alookup st.registry m = some (P + off)) :
    (getPortForChannel st ch).2.portBase = P ∧
      ∀ m off, knownOffset m = some off →
        alookup (getPortForChannel st ch).2.registry m = none ∨
        alookup (getPortForChannel st ch).2.registry m = some (P + off) := by
  rcases hl : alookup st.registry (channelToService ch) with _ | p
  · simp only [getPortForChannel, hl]
    exact registerService_preserves P st _ hbase hinv
  · simp only [getPortForChannel, hl]
    by_cases hz : p ≠ 0
    · rw [if_pos hz]
      exact ⟨hbase, hinv⟩
    · rw [if_neg hz]
      exact registerService_preserves P st _ hbase hinv

theorem reaches_invariant (P : Nat) (st : PState) (h : Reaches P st) :
    st.portBase = P ∧ ∀ m off, knownOffset m = some off →
      alookup st.registry m = none ∨ alookup st.registry m = some (P + off) := by
  induction h with
  | base => exact ⟨rfl, fun m off _ => Or.inl rfl⟩
  | reg st' n hr ih => exact registerService_preserves P st' n ih.1 ih.2
  | chan st' ch hr ih => exact getPortForChannel_preserves P st' ch ih.1 ih.2

theorem registerService_known_fst (P : Nat) (st : PState) (n : String)
    (off : Nat) (hk : knownOffset n = some off) (hbase : st.portBase = P) :
    (registerService st n).1 = P + off := by
  simp [registerService, hk, hbase]

theorem getPortForChannel_known (P : Nat) (st : PState) (ch : String)
    (off : Nat) (hk : knownOffset (channelToService ch) = some off)
    (hbase : st.portBase = P)
    (hinv : ∀ m o, knownOffset m = some o →
      alookup st.registry m = none ∨ alookup st.registry m = some (P + o)) :
    (getPortForChannel st ch).1 = P + off := by
  have hreg : (registerService st (channelToService ch)).1 = P + off :=
    registerService_known_fst P st _ off hk hbase
  rcases hl : alookup st.registry (channelToService ch) with _ | p
  · simp only [getPortForChannel, hl]
    exact hreg
  · rcases hinv _ _ hk with h0 | h0
    · rw [hl] at h0
      exact Option.noConfusion h0
    · rw [hl] at h0
      injection h0 with hp
      simp only [getPortForChannel, hl]
      by_cases hz : p = 0
      · rw [if_neg (by simp [hz])]
        exact hreg
      · rw [if_pos hz]
        exact hp

/-- C8: in any transport state reachable within one process lifetime from a
fresh transport configured with base port P, resolving the well-known
channels/services is deterministic: orchestrator resolves to P+0,
order-service to P+1, inventory-service to P+2, payment-service to P+3,
both through getPortForChannel on the services' queue names and through
registerService on the service names, regardless of the order or number of
prior registrations recorded in the state. -/
theorem wellKnown_ports_deterministic (P : Nat) (st : PState)
    (h : Reaches P st) :
    ((getPortForChannel st "orchestrator_queue").1 = P + 0
      ∧ (getPortForChannel st "order_service_queue").1 = P + 1
      ∧ (getPortForChannel st "inventory_service_queue").1 = P + 2
      ∧ (getPortForChannel st "payment_service_queue").1 = P + 3)
    ∧ ((registerService st "orchestrator").1 = P + 0
      ∧ (registerService st "order-service").1 = P + 1
      ∧ (registerService st "inventory-service").1 = P + 2
      ∧ (registerService st "payment-service").1 = P + 3) := by
  obtain ⟨hbase, hinv⟩ := reaches_invariant P st h
  exact ⟨⟨getPortForChannel_known P st _ 0 (by decide) hbase hinv,
          getPortForChannel_known P st _ 1 (by decide) hbase hinv,
          getPortForChannel_known P st _ 2 (by decide) hbase hinv,
          getPortForChannel_known P st _ 3 (by decide) hbase hinv⟩,
         ⟨registerService_known_fst P st _ 0 (by decide) hbase,
          registerService_known_fst P st _ 1 (by decide) hbase,
          registerService_known_fst P st _ 2 (by decide) hbase,
          registerService_known_fst P st _ 3 (by decide) hbase⟩⟩

/-- C8 witness: the theorem at the fresh transport with base port 4000. -/
theorem wellKnown_ports_deterministic_witness :
    (((getPortForChannel (PState.initial 4000) "orchestrator_queue").1
          = 4000 + 0
      ∧ (getPortForChannel (PState.initial 4000) "order_service_queue").1
          = 4000 + 1
      ∧ (getPortForChannel (PState.initial 4000) "inventory_service_queue").1
          = 4000 + 2
      ∧ (getPortForChannel (PState.initial 4000) "payment_service_queue").1
          = 4000 + 3)
    ∧ ((registerService (PState.initial 4000) "orchestrator").1 = 4000 + 0
      ∧ (registerService (PState.initial 4000) "order-service").1 = 4000 + 1
      ∧ (registerService (PState.initial 4000) "inventory-service").1
          = 4000 + 2
      ∧ (registerService (PState.initial 4000) "payment-service").1
          = 4000 + 3)) :=
  wellKnown_ports_deterministic 4000 (PState.initial 4000) Reaches.base

end TCPPorts

namespace MessageServiceModel

theorem initCount_append (l1 l2 : List TCall) :
    initCount (l1 ++ l2) = initCount l1 + initCount l2 := by
  induction l1 with
  | nil => simp [initCount]
  | cons c rest ih => simp [initCount, ih, Nat.add_assoc]

theorem stepM_initCount (hasCQ : Bool) (st : MState) (op : MOp)
    (h0 : st.initialized = false → initCount st.calls = 0)
    (h1 : initCount st.calls ≤ 1) :
    ((stepM hasCQ st op).initialized = false →
        initCount (stepM hasCQ st op).calls = 0)
    ∧ initCount (stepM hasCQ st op).calls ≤ 1 := by
  cases op <;> cases hasCQ <;> rcases hb : st.initialized
  all_goals
    first
      | (have hc := h0 hb
         simp [stepM, initCall, ensureInitialized, hb, initCount_append,
               initCount, hc])
      | simp [stepM, initCall, ensureInitialized, hb, initCount_append,
              initCount, h1]

theorem runM_initCount (hasCQ : Bool) (ops : List MOp) :
    ∀ st : MState, (st.initialized = false → initCount st.calls = 0) →
      initCount st.calls ≤ 1 →
      initCount (runM hasCQ st ops).calls ≤ 1 := by
  induction ops with
  | nil =>
      intro st h0 h1
      simpa [runM] using h1
  | cons op rest ih =>
      intro st h0 h1
      obtain ⟨g0, g1⟩ := stepM_initCount hasCQ st op h0 h1
      exact ih _ g0 g1

/-- C9: the facade initializes its transport lazily and idempotently.  Over
any sequence of facade calls from a fresh facade the trace records at most
one transport.initialize; calling initialize twice equals calling it once;
and publish, subscribe or createQueue on an uninitialized facade first
records exactly one transport.initialize and then performs the operation
(for createQueue, the transport call happens only when the transport defines
createQueue: true for the broker transport, false for the TCP one). -/
theorem messageService_lazy_idempotent (hasCQ : Bool) :
    (∀ ops : List MOp, initCount (runM hasCQ MState.fresh ops).calls ≤ 1)
    ∧ (∀ st : MState,
        stepM hasCQ (stepM hasCQ st .initOp) .initOp = stepM hasCQ st .initOp)
    ∧ (∀ (q : String) (calls : List TCall),
        (stepM hasCQ ⟨false, calls⟩ (.pubOp q)).calls
            = calls ++ [TCall.initT, TCall.pubT q]
        ∧ (stepM hasCQ ⟨false, calls⟩ (.subOp q)).calls
            = calls ++ [TCall.initT, TCall.subT q]
        ∧ (stepM true ⟨false, calls⟩ (.cqOp q)).calls
            = calls ++ [TCall.initT, TCall.cqT q]
        ∧ (stepM false ⟨false, calls⟩ (.cqOp q)).calls
            = calls ++ [TCall.initT]) := by
  refine ⟨?_, ?_, ?_⟩
  · intro ops
    exact runM_initCount hasCQ ops MState.fresh (fun _ => rfl)
      (by simp [MState.fresh, initCount])
  · intro st
    rcases hb : st.initialized <;> simp [stepM, initCall, hb]
  · intro q calls
    refine ⟨?_, ?_, ?_, ?_⟩ <;> simp [stepM, ensureInitialized, initCall]

end MessageServiceModel

